import Mathlib

/-!
Verification of the condition-evaluation and care-summary engine of the
openplantbook-mcp server (internal/server: formatCareSummary,
interpretLightLevel, interpretMoistureLevel, compareConditions, the four
tool handlers, and the LoadConfig authentication validation).

Modelling conventions:
* Go `int` fields are modelled as `ℤ`, Go `float64` fields as exact
  rationals `ℚ` (all arithmetic the code performs on them is a single
  multiply/divide/add/subtract and comparisons, which are exact at the
  one-decimal display precision used everywhere in this code).
* Go `fmt.Sprintf` verbs `%d`, `%.0f`, `%.1f` are modelled by `intStr`,
  `fmtF0`, `fmtF1` below; rounding is to nearest, ties to even, matching
  Go's formatting of exactly representable ties.
* The loosely typed `map[string]interface{}` argument bags are modelled
  as association lists of `JSONValue`; the Go type assertion `.(float64)`
  succeeds exactly on the `num` constructor.
-/

/- `Rat.add` and friends are `@[irreducible]` in Batteries, which blocks
elaborator-side evaluation (`decide`) of concrete outputs; the kernel
unfolds them regardless.  Restore default reducibility inside this file. -/
attribute [local semireducible] Rat.add Rat.mul Rat.sub Rat.inv

/-- A JSON-ish dynamic value, modelling Go `interface{}` after
`encoding/json` unmarshalling (numbers always decode to `float64`). -/
inductive JSONValue where
  | num (q : ℚ)
  | str (s : String)
  | boolean (b : Bool)
  | null
  | arr (vs : List JSONValue)
  | obj (fields : List (String × JSONValue))

/-- A Go `map[string]interface{}` value, as an association list. -/
abbrev Conditions := List (String × JSONValue)

/-- The Go type assertion `conditions[key].(float64)`: yields a numeric
value exactly when the key is present and its value is a number. -/
def getFloat64 (c : Conditions) (key : String) : Option ℚ :=
  match List.lookup key c with
  | some (JSONValue.num q) => some q
  | _ => none

/-- Care-range data returned by the OpenPlantbook SDK (`PlantDetails`):
string metadata, integer lux / % / EC bounds, float temperature bounds. -/
structure PlantDetails where
  PID : String
  DisplayPID : String
  Alias : String
  Category : String
  ImageURL : String
  MinLightLux : ℤ
  MaxLightLux : ℤ
  MinTemp : ℚ
  MaxTemp : ℚ
  MinEnvHumid : ℤ
  MaxEnvHumid : ℤ
  MinSoilMoist : ℤ
  MaxSoilMoist : ℤ
  MinSoilEC : ℤ
  MaxSoilEC : ℤ

/-- Character for a single decimal digit (`0 ≤ n ≤ 9`). -/
def digitChar (n : ℕ) : Char := Char.ofNat (48 + n)

/-- Decimal digit list of a natural number; `fuel` bounds the recursion
(`fuel = n + 1` always suffices since the argument shrinks by `/ 10`). -/
def natStrAux : ℕ → ℕ → List Char
  | 0, _ => []
  | fuel + 1, n =>
    if n < 10 then [digitChar n]
    else natStrAux fuel (n / 10) ++ [digitChar (n % 10)]

/-- Decimal rendering of a natural number. -/
def natStr (n : ℕ) : String := ⟨natStrAux (n + 1) n⟩

/-- Go `fmt` verb `%d` on an `int`. -/
def intStr (n : ℤ) : String :=
  if n < 0 then "-" ++ natStr n.natAbs else natStr n.natAbs

/-- Round a rational to the nearest integer, ties to even (the rounding
Go's `fmt` float formatting applies to exactly representable ties). -/
def roundNearestEven (q : ℚ) : ℤ :=
  let d : ℤ := (q.den : ℤ)
  let fl : ℤ := Int.fdiv q.num d
  let r : ℤ := q.num - fl * d
  if 2 * r < d then fl
  else if d < 2 * r then fl + 1
  else if fl % 2 = 0 then fl else fl + 1

/-- Go `fmt` verb `%.0f` (floats modelled as exact rationals). -/
def fmtF0 (q : ℚ) : String := intStr (roundNearestEven q)

/-- Go `fmt` verb `%.1f` (floats modelled as exact rationals). -/
def fmtF1 (q : ℚ) : String :=
  let t := roundNearestEven (q * 10)
  (if t < 0 then "-" else "") ++ natStr (t.natAbs / 10) ++ "." ++ natStr (t.natAbs % 10)

/-- interpretLightLevel from internal/server: qualitative tag for a lux
range, chosen by the truncated integer midpoint of the bounds. -/
def interpretLightLevel (min max : ℤ) : String :=
  let avg := Int.tdiv (min + max) 2
  if avg < 2000 then " (Low light - suitable for shade-tolerant plants)"
  else if avg < 10000 then " (Medium indirect light - typical indoor lighting)"
  else if avg < 25000 then " (Bright indirect light - near windows)"
  else " (Full sun or very bright light - direct sunlight)"

/-- interpretMoistureLevel from internal/server: qualitative tag for a
soil-moisture range, chosen by the truncated integer midpoint. -/
def interpretMoistureLevel (min max : ℤ) : String :=
  let avg := Int.tdiv (min + max) 2
  if avg < 20 then " (Dry soil - water sparingly)"
  else if avg < 40 then " (Slightly moist - let soil dry between waterings)"
  else if avg < 60 then " (Evenly moist - keep soil consistently moist)"
  else " (Very moist - likes wet conditions)"

/-- Header lines of the care summary (title, category, section header). -/
def summaryHeader (d : PlantDetails) : String :=
  "# " ++ d.Alias ++ " (" ++ d.DisplayPID ++ ")\n\n" ++
  "Category: " ++ d.Category ++ "\n\n" ++
  "## Care Requirements\n\n"

/-- Light section of the care summary. -/
def lightSection (d : PlantDetails) : String :=
  "**Light**: " ++ intStr d.MinLightLux ++ " - " ++ intStr d.MaxLightLux ++ " lux" ++
  interpretLightLevel d.MinLightLux d.MaxLightLux ++ "\n\n"

/-- Temperature section of the care summary: Celsius when metric,
otherwise both bounds converted by `F = C * 9 / 5 + 32`. -/
def tempSection (d : PlantDetails) (metric : Bool) : String :=
  if metric then
    "**Temperature**: " ++ fmtF1 d.MinTemp ++ " - " ++ fmtF1 d.MaxTemp ++ "°C" ++ "\n\n"
  else
    "**Temperature**: " ++ fmtF1 (d.MinTemp * 9 / 5 + 32) ++ " - " ++
      fmtF1 (d.MaxTemp * 9 / 5 + 32) ++ "°F" ++ "\n\n"

/-- Humidity section of the care summary. -/
def humiditySection (d : PlantDetails) : String :=
  "**Humidity**: " ++ intStr d.MinEnvHumid ++ " - " ++ intStr d.MaxEnvHumid ++ "%\n\n"

/-- Soil-moisture section of the care summary. -/
def moistureSection (d : PlantDetails) : String :=
  "**Soil Moisture**: " ++ intStr d.MinSoilMoist ++ " - " ++ intStr d.MaxSoilMoist ++ "%" ++
  interpretMoistureLevel d.MinSoilMoist d.MaxSoilMoist ++ "\n\n"

/-- Soil-conductivity (fertilizer) section of the care summary. -/
def ecSection (d : PlantDetails) : String :=
  "**Fertilizer (EC)**: " ++ intStr d.MinSoilEC ++ " - " ++ intStr d.MaxSoilEC ++ " µS/cm\n\n"

/-- formatCareSummary from internal/server: renders the header and then
each dimension's section, each one only when its upper bound is > 0,
finally an image reference when present. -/
def formatCareSummary (d : PlantDetails) (metric : Bool) : String :=
  let summary := summaryHeader d
  let summary := if 0 < d.MaxLightLux then summary ++ lightSection d else summary
  let summary := if 0 < d.MaxTemp then summary ++ tempSection d metric else summary
  let summary := if 0 < d.MaxEnvHumid then summary ++ humiditySection d else summary
  let summary := if 0 < d.MaxSoilMoist then summary ++ moistureSection d else summary
  let summary := if 0 < d.MaxSoilEC then summary ++ ecSection d else summary
  if d.ImageURL ≠ "" then summary ++ "\n[Plant Image](" ++ d.ImageURL ++ ")\n" else summary

/-- Issue line for soil moisture below range. -/
def moistureTooLow (cur min max diff : ℚ) : String :=
  "❌ **Soil Moisture Too Low**: Current " ++ fmtF1 cur ++ "%, needs " ++
  fmtF0 min ++ "-" ++ fmtF0 max ++ "% (" ++ fmtF1 diff ++ "% below minimum)"

/-- Issue line for soil moisture above range. -/
def moistureTooHigh (cur min max diff : ℚ) : String :=
  "❌ **Soil Moisture Too High**: Current " ++ fmtF1 cur ++ "%, needs " ++
  fmtF0 min ++ "-" ++ fmtF0 max ++ "% (" ++ fmtF1 diff ++ "% above maximum)"

/-- OK line for soil moisture within range. -/
def moistureOkLine (cur min max : ℚ) : String :=
  "✅ **Soil Moisture**: " ++ fmtF1 cur ++ "% (within " ++ fmtF0 min ++ "-" ++
  fmtF0 max ++ "% range)"

/-- Issue line for temperature below range. -/
def tempTooLow (cur min max diff : ℚ) : String :=
  "❌ **Temperature Too Low**: Current " ++ fmtF1 cur ++ "°C, needs " ++
  fmtF1 min ++ "-" ++ fmtF1 max ++ "°C (" ++ fmtF1 diff ++ "°C below minimum)"

/-- Issue line for temperature above range. -/
def tempTooHigh (cur min max diff : ℚ) : String :=
  "❌ **Temperature Too High**: Current " ++ fmtF1 cur ++ "°C, needs " ++
  fmtF1 min ++ "-" ++ fmtF1 max ++ "°C (" ++ fmtF1 diff ++ "°C above maximum)"

/-- OK line for temperature within range. -/
def tempOkLine (cur min max : ℚ) : String :=
  "✅ **Temperature**: " ++ fmtF1 cur ++ "°C (within " ++ fmtF1 min ++ "-" ++
  fmtF1 max ++ "°C range)"

/-- Issue line for light below range. -/
def lightTooLow (cur min max diff : ℚ) : String :=
  "❌ **Light Too Low**: Current " ++ fmtF0 cur ++ " lux, needs " ++
  fmtF0 min ++ "-" ++ fmtF0 max ++ " lux (" ++ fmtF0 diff ++ " lux below minimum)"

/-- Issue line for light above range. -/
def lightTooHigh (cur min max diff : ℚ) : String :=
  "❌ **Light Too High**: Current " ++ fmtF0 cur ++ " lux, needs " ++
  fmtF0 min ++ "-" ++ fmtF0 max ++ " lux (" ++ fmtF0 diff ++ " lux above maximum)"

/-- OK line for light within range. -/
def lightOkLine (cur min max : ℚ) : String :=
  "✅ **Light**: " ++ fmtF0 cur ++ " lux (within " ++ fmtF0 min ++ "-" ++
  fmtF0 max ++ " lux range)"

/-- Issue line for humidity below range. -/
def humidTooLow (cur min max diff : ℚ) : String :=
  "❌ **Humidity Too Low**: Current " ++ fmtF1 cur ++ "%, needs " ++
  fmtF0 min ++ "-" ++ fmtF0 max ++ "% (" ++ fmtF1 diff ++ "% below minimum)"

/-- Issue line for humidity above range. -/
def humidTooHigh (cur min max diff : ℚ) : String :=
  "❌ **Humidity Too High**: Current " ++ fmtF1 cur ++ "%, needs " ++
  fmtF0 min ++ "-" ++ fmtF0 max ++ "% (" ++ fmtF1 diff ++ "% above maximum)"

/-- OK line for humidity within range. -/
def humidOkLine (cur min max : ℚ) : String :=
  "✅ **Humidity**: " ++ fmtF1 cur ++ "% (within " ++ fmtF0 min ++ "-" ++
  fmtF0 max ++ "% range)"

/-- Moisture check of compareConditions: runs only when the reading has a
numeric `moisture` and `MaxSoilMoist > 0`; appends one issue or OK line. -/
def checkMoisture (d : PlantDetails) (c : Conditions)
    (acc : List String × List String) : List String × List String :=
  match getFloat64 c "moisture" with
  | some moisture =>
    if 0 < d.MaxSoilMoist then
      let min : ℚ := (d.MinSoilMoist : ℤ)
      let max : ℚ := (d.MaxSoilMoist : ℤ)
      if moisture < min then (acc.1 ++ [moistureTooLow moisture min max (min - moisture)], acc.2)
      else if max < moisture then (acc.1 ++ [moistureTooHigh moisture min max (moisture - max)], acc.2)
      else (acc.1, acc.2 ++ [moistureOkLine moisture min max])
    else acc
  | none => acc

/-- Temperature check of compareConditions. -/
def checkTemperature (d : PlantDetails) (c : Conditions)
    (acc : List String × List String) : List String × List String :=
  match getFloat64 c "temperature" with
  | some temp =>
    if 0 < d.MaxTemp then
      let min := d.MinTemp
      let max := d.MaxTemp
      if temp < min then (acc.1 ++ [tempTooLow temp min max (min - temp)], acc.2)
      else if max < temp then (acc.1 ++ [tempTooHigh temp min max (temp - max)], acc.2)
      else (acc.1, acc.2 ++ [tempOkLine temp min max])
    else acc
  | none => acc

/-- Light check of compareConditions (reads key `light_lux`). -/
def checkLight (d : PlantDetails) (c : Conditions)
    (acc : List String × List String) : List String × List String :=
  match getFloat64 c "light_lux" with
  | some light =>
    if 0 < d.MaxLightLux then
      let min : ℚ := (d.MinLightLux : ℤ)
      let max : ℚ := (d.MaxLightLux : ℤ)
      if light < min then (acc.1 ++ [lightTooLow light min max (min - light)], acc.2)
      else if max < light then (acc.1 ++ [lightTooHigh light min max (light - max)], acc.2)
      else (acc.1, acc.2 ++ [lightOkLine light min max])
    else acc
  | none => acc

/-- Humidity check of compareConditions. -/
def checkHumidity (d : PlantDetails) (c : Conditions)
    (acc : List String × List String) : List String × List String :=
  match getFloat64 c "humidity" with
  | some humid =>
    if 0 < d.MaxEnvHumid then
      let min : ℚ := (d.MinEnvHumid : ℤ)
      let max : ℚ := (d.MaxEnvHumid : ℤ)
      if humid < min then (acc.1 ++ [humidTooLow humid min max (min - humid)], acc.2)
      else if max < humid then (acc.1 ++ [humidTooHigh humid min max (humid - max)], acc.2)
      else (acc.1, acc.2 ++ [humidOkLine humid min max])
    else acc
  | none => acc

/-- The issues and OK lists accumulated by compareConditions, in the fixed
evaluation order moisture, temperature, light, humidity. -/
def compareIssuesOk (d : PlantDetails) (c : Conditions) : List String × List String :=
  checkHumidity d c (checkLight d c (checkTemperature d c (checkMoisture d c ([], []))))

/-- Final summary line of compareConditions when issues were found. -/
def attentionTail (n : ℕ) : String :=
  "\n**Summary**: " ++ natStr n ++ " condition(s) need attention.\n"

/-- compareConditions from internal/server: renders a header, the issues
section, the OK section, and a closing line chosen by the two counts. -/
def compareConditions (d : PlantDetails) (c : Conditions) : String :=
  let analysis := "# Condition Analysis for " ++ d.Alias ++ "\n\n"
  let issues := (compareIssuesOk d c).1
  let ok := (compareIssuesOk d c).2
  let analysis :=
    if 0 < issues.length then
      issues.foldl (fun a i => a ++ i ++ "\n\n") (analysis ++ "## Issues Detected\n\n")
    else analysis
  let analysis :=
    if 0 < ok.length then
      ok.foldl (fun a i => a ++ i ++ "\n\n") (analysis ++ "## Conditions Within Range\n\n")
    else analysis
  let analysis :=
    if issues.length = 0 ∧ ok.length = 0 then
      analysis ++ "No conditions were provided for comparison.\n"
    else analysis
  if issues.length = 0 ∧ 0 < ok.length then
    analysis ++ "\n**Summary**: All monitored conditions are within ideal ranges! 🌱\n"
  else if 0 < issues.length then analysis ++ attentionTail issues.length
  else analysis

/-- The five care-range dimensions of the data model. -/
inductive Dim where
  | light
  | temperature
  | humidity
  | soilMoisture
  | conductivity
deriving DecidableEq

/-- A dimension's upper bound is zero (the data model's "not specified"). -/
def dimUpperZero (d : PlantDetails) : Dim → Prop
  | Dim.light => d.MaxLightLux = 0
  | Dim.temperature => d.MaxTemp = 0
  | Dim.humidity => d.MaxEnvHumid = 0
  | Dim.soilMoisture => d.MaxSoilMoist = 0
  | Dim.conductivity => d.MaxSoilEC = 0

instance (d : PlantDetails) (dim : Dim) : Decidable (dimUpperZero d dim) := by
  cases dim <;> simp only [dimUpperZero] <;> infer_instance

/-- Care summary with one dimension structurally omitted.  This is the
spec-side rendering for the sentence "such dimensions are skipped entirely
in both summary and comparison output": the section of `skip` is deleted
from the renderer outright, independent of the range data. -/
def formatCareSummarySkipping (skip : Dim) (d : PlantDetails) (metric : Bool) : String :=
  let summary := summaryHeader d
  let summary :=
    if skip ≠ Dim.light ∧ 0 < d.MaxLightLux then summary ++ lightSection d else summary
  let summary :=
    if skip ≠ Dim.temperature ∧ 0 < d.MaxTemp then summary ++ tempSection d metric else summary
  let summary :=
    if skip ≠ Dim.humidity ∧ 0 < d.MaxEnvHumid then summary ++ humiditySection d else summary
  let summary :=
    if skip ≠ Dim.soilMoisture ∧ 0 < d.MaxSoilMoist then summary ++ moistureSection d else summary
  let summary :=
    if skip ≠ Dim.conductivity ∧ 0 < d.MaxSoilEC then summary ++ ecSection d else summary
  if d.ImageURL ≠ "" then summary ++ "\n[Plant Image](" ++ d.ImageURL ++ ")\n" else summary

/-- Comparison lists with one dimension's check structurally omitted
(spec-side counterpart of `compareIssuesOk`; conductivity has no check). -/
def compareIssuesOkSkipping (skip : Dim) (d : PlantDetails) (c : Conditions) :
    List String × List String :=
  let acc : List String × List String := ([], [])
  let acc := if skip ≠ Dim.soilMoisture then checkMoisture d c acc else acc
  let acc := if skip ≠ Dim.temperature then checkTemperature d c acc else acc
  let acc := if skip ≠ Dim.light then checkLight d c acc else acc
  if skip ≠ Dim.humidity then checkHumidity d c acc else acc

/-- Comparison report with one dimension structurally omitted (spec-side
counterpart of `compareConditions`). -/
def compareConditionsSkipping (skip : Dim) (d : PlantDetails) (c : Conditions) : String :=
  let analysis := "# Condition Analysis for " ++ d.Alias ++ "\n\n"
  let issues := (compareIssuesOkSkipping skip d c).1
  let ok := (compareIssuesOkSkipping skip d c).2
  let analysis :=
    if 0 < issues.length then
      issues.foldl (fun a i => a ++ i ++ "\n\n") (analysis ++ "## Issues Detected\n\n")
    else analysis
  let analysis :=
    if 0 < ok.length then
      ok.foldl (fun a i => a ++ i ++ "\n\n") (analysis ++ "## Conditions Within Range\n\n")
    else analysis
  let analysis :=
    if issues.length = 0 ∧ ok.length = 0 then
      analysis ++ "No conditions were provided for comparison.\n"
    else analysis
  if issues.length = 0 ∧ 0 < ok.length then
    analysis ++ "\n**Summary**: All monitored conditions are within ideal ranges! 🌱\n"
  else if 0 < issues.length then analysis ++ attentionTail issues.length
  else analysis

/-- The four dimensions compareConditions can evaluate. -/
inductive SensorDim where
  | moisture
  | temperature
  | light
  | humidity
deriving DecidableEq

/-- Reading key consulted for each comparable dimension. -/
def sensorKey : SensorDim → String
  | SensorDim.moisture => "moisture"
  | SensorDim.temperature => "temperature"
  | SensorDim.light => "light_lux"
  | SensorDim.humidity => "humidity"

/-- Range minimum used by the comparison, as the float the code compares. -/
def sensorMin (d : PlantDetails) : SensorDim → ℚ
  | SensorDim.moisture => (d.MinSoilMoist : ℤ)
  | SensorDim.temperature => d.MinTemp
  | SensorDim.light => (d.MinLightLux : ℤ)
  | SensorDim.humidity => (d.MinEnvHumid : ℤ)

/-- Range maximum used by the comparison, as the float the code compares. -/
def sensorMax (d : PlantDetails) : SensorDim → ℚ
  | SensorDim.moisture => (d.MaxSoilMoist : ℤ)
  | SensorDim.temperature => d.MaxTemp
  | SensorDim.light => (d.MaxLightLux : ℤ)
  | SensorDim.humidity => (d.MaxEnvHumid : ℤ)

/-- The guard compareConditions puts on each dimension's upper bound. -/
def sensorMaxPos (d : PlantDetails) : SensorDim → Prop
  | SensorDim.moisture => 0 < d.MaxSoilMoist
  | SensorDim.temperature => 0 < d.MaxTemp
  | SensorDim.light => 0 < d.MaxLightLux
  | SensorDim.humidity => 0 < d.MaxEnvHumid

instance (d : PlantDetails) (dim : SensorDim) : Decidable (sensorMaxPos d dim) := by
  cases dim <;> simp only [sensorMaxPos] <;> infer_instance

/-- Dispatch to the per-dimension "too low" issue line. -/
def tooLowLineOf : SensorDim → ℚ → ℚ → ℚ → ℚ → String
  | SensorDim.moisture => moistureTooLow
  | SensorDim.temperature => tempTooLow
  | SensorDim.light => lightTooLow
  | SensorDim.humidity => humidTooLow

/-- Dispatch to the per-dimension "too high" issue line. -/
def tooHighLineOf : SensorDim → ℚ → ℚ → ℚ → ℚ → String
  | SensorDim.moisture => moistureTooHigh
  | SensorDim.temperature => tempTooHigh
  | SensorDim.light => lightTooHigh
  | SensorDim.humidity => humidTooHigh

/-- Dispatch to the per-dimension "within range" OK line. -/
def withinLineOf : SensorDim → ℚ → ℚ → ℚ → String
  | SensorDim.moisture => moistureOkLine
  | SensorDim.temperature => tempOkLine
  | SensorDim.light => lightOkLine
  | SensorDim.humidity => humidOkLine

/-- Result payload of an MCP tool call (text plus the error flag). -/
structure CallToolResult where
  isError : Bool
  text : String

/-- mcp.NewToolResultError: an error-flagged text result. -/
def NewToolResultError (msg : String) : CallToolResult := ⟨true, msg⟩

/-- mcp.NewToolResultText: a success text result. -/
def NewToolResultText (t : String) : CallToolResult := ⟨false, t⟩

/-- Modelled from the mcp-go request helpers the handlers call:
`request.RequireString(key)` returns the argument when present as a
string and fails otherwise. -/
def RequireString (args : Conditions) (key : String) : Except String String :=
  match List.lookup key args with
  | some (JSONValue.str s) => Except.ok s
  | _ => Except.error ("required argument \x22" ++ key ++ "\x22 not found")

/-- Modelled from mcp-go `request.GetInt(key, default)`: the numeric
argument truncated to int, or the default when absent or non-numeric. -/
def GetInt (args : Conditions) (key : String) (dflt : ℤ) : ℤ :=
  match List.lookup key args with
  | some (JSONValue.num q) => Int.tdiv q.num (q.den : ℤ)
  | _ => dflt

/-- Modelled from mcp-go `request.GetString(key, default)`. -/
def GetString (args : Conditions) (key : String) (dflt : String) : String :=
  match List.lookup key args with
  | some (JSONValue.str s) => s
  | _ => dflt

/-- Modelled from mcp-go `request.GetBool(key, default)`. -/
def GetBool (args : Conditions) (key : String) (dflt : Bool) : Bool :=
  match List.lookup key args with
  | some (JSONValue.boolean b) => b
  | _ => dflt

/-- handleSearchPlants from internal/server, with the SDK search call and
the JSON marshalling abstracted as function parameters.  Returns the Go
pair (result, error); a nil Go error is `none`. -/
def handleSearchPlants {α : Type} (searchPlants : String → ℤ → Except String (List α))
    (marshal : List α → Except String String) (args : Conditions) :
    CallToolResult × Option String :=
  match RequireString args "query" with
  | Except.error _ =>
    (NewToolResultError "query parameter is required and must be a string", none)
  | Except.ok query =>
    let limit := GetInt args "limit" 10
    match searchPlants query limit with
    | Except.error e => (NewToolResultError ("search failed: " ++ e), none)
    | Except.ok results =>
      match marshal results with
      | Except.error _ => (NewToolResultError "failed to format results", none)
      | Except.ok data => (NewToolResultText data, none)

/-- handleGetPlantCare from internal/server, SDK lookup and marshalling
abstracted; `defaultLang` is the configured default language. -/
def handleGetPlantCare (getPlantDetails : String → String → Except String PlantDetails)
    (marshal : PlantDetails → Except String String) (defaultLang : String)
    (args : Conditions) : CallToolResult × Option String :=
  match RequireString args "pid" with
  | Except.error _ =>
    (NewToolResultError "pid parameter is required and must be a string", none)
  | Except.ok pid =>
    let language := GetString args "language" defaultLang
    match getPlantDetails pid language with
    | Except.error e => (NewToolResultError ("failed to get plant details: " ++ e), none)
    | Except.ok details =>
      match marshal details with
      | Except.error _ => (NewToolResultError "failed to format details", none)
      | Except.ok data => (NewToolResultText data, none)

/-- handleGetCareSummary from internal/server, SDK lookup abstracted. -/
def handleGetCareSummary (getPlantDetails : String → Except String PlantDetails)
    (args : Conditions) : CallToolResult × Option String :=
  match RequireString args "pid" with
  | Except.error _ =>
    (NewToolResultError "pid parameter is required and must be a string", none)
  | Except.ok pid =>
    let metric := GetBool args "metric" true
    match getPlantDetails pid with
    | Except.error e => (NewToolResultError ("failed to get plant details: " ++ e), none)
    | Except.ok details => (NewToolResultText (formatCareSummary details metric), none)

/-- handleCompareConditions from internal/server: requires a string `pid`
and an object `current_conditions` (the Go type assertion to
`map[string]interface{}`), then compares against the fetched details. -/
def handleCompareConditions (getPlantDetails : String → Except String PlantDetails)
    (args : Conditions) : CallToolResult × Option String :=
  match RequireString args "pid" with
  | Except.error _ =>
    (NewToolResultError "pid parameter is required and must be a string", none)
  | Except.ok pid =>
    match List.lookup "current_conditions" args with
    | some (JSONValue.obj conditions) =>
      (match getPlantDetails pid with
      | Except.error e => (NewToolResultError ("failed to get plant details: " ++ e), none)
      | Except.ok details => (NewToolResultText (compareConditions details conditions), none))
    | _ =>
      (NewToolResultError "current_conditions parameter is required and must be an object", none)

/-- Log levels of the configuration. -/
inductive LogLevel where
  | debug
  | info
  | warn
  | error
deriving DecidableEq

/-- The MCP server configuration (internal/server/config.go). -/
structure Config where
  APIKey : String
  ClientID : String
  ClientSecret : String
  LogLevel : LogLevel
  CacheEnabled : Bool
  CacheTTL : ℤ
  DefaultLang : String

/-- Validation step at the end of LoadConfig: exactly the two checks on
lines 88-98 of config.go, applied to the parsed configuration. -/
def validateConfig (c : Config) : Except String Config :=
  let hasAPIKey := c.APIKey != ""
  let hasOAuth2 := (c.ClientID != "") && (c.ClientSecret != "")
  if !hasAPIKey && !hasOAuth2 then
    Except.error "authentication required: provide either api_key OR (client_id and client_secret)"
  else if hasAPIKey && hasOAuth2 then
    Except.error "multiple authentication methods provided: use either api_key OR OAuth2, not both"
  else Except.ok c

/-- Authentication method selected by server.New. -/
inductive AuthChoice where
  | apiKey (key : String)
  | oauth2 (id secret : String)
deriving DecidableEq

/-- Authentication selection of server.New: the API key when non-empty,
otherwise the OAuth2 pair. -/
def chooseAuth (c : Config) : AuthChoice :=
  if c.APIKey != "" then AuthChoice.apiKey c.APIKey
  else AuthChoice.oauth2 c.ClientID c.ClientSecret

/-- Go map deletion, modelling absence of a key from a reading. -/
def eraseKey : Conditions → String → Conditions
  | [], _ => []
  | p :: rest, k => if p.1 = k then eraseKey rest k else p :: eraseKey rest k

/-- Concrete plant fixture: full range data (monstera-like values). -/
def fixtureFull : PlantDetails :=
  { PID := "monstera deliciosa", DisplayPID := "Monstera deliciosa", Alias := "monstera",
    Category := "foliage", ImageURL := "",
    MinLightLux := 1500, MaxLightLux := 3000, MinTemp := 18, MaxTemp := 27,
    MinEnvHumid := 60, MaxEnvHumid := 80, MinSoilMoist := 25, MaxSoilMoist := 60,
    MinSoilEC := 350, MaxSoilEC := 2000 }

/-- Concrete plant fixture: light upper bound zero, the rest full. -/
def fixtureNoLight : PlantDetails :=
  { PID := "monstera deliciosa", DisplayPID := "Monstera deliciosa", Alias := "monstera",
    Category := "foliage", ImageURL := "",
    MinLightLux := 1500, MaxLightLux := 0, MinTemp := 18, MaxTemp := 27,
    MinEnvHumid := 60, MaxEnvHumid := 80, MinSoilMoist := 25, MaxSoilMoist := 60,
    MinSoilEC := 350, MaxSoilEC := 2000 }

/-- Concrete plant fixture: only the light range is specified. -/
def fixtureLightOnly : PlantDetails :=
  { PID := "ficus", DisplayPID := "Ficus", Alias := "ficus",
    Category := "foliage", ImageURL := "",
    MinLightLux := 1500, MaxLightLux := 3000, MinTemp := 0, MaxTemp := 0,
    MinEnvHumid := 0, MaxEnvHumid := 0, MinSoilMoist := 0, MaxSoilMoist := 0,
    MinSoilEC := 0, MaxSoilEC := 0 }

/-- Concrete reading fixture: all four keys in range for `fixtureFull`. -/
def readingAllOk : Conditions :=
  [("moisture", JSONValue.num 45), ("temperature", JSONValue.num 22),
    ("light_lux", JSONValue.num 2000), ("humidity", JSONValue.num 65)]

/-- Concrete reading fixture: moisture 15 only. -/
def readingMoistLow : Conditions := [("moisture", JSONValue.num 15)]

/-- Concrete reading fixture: a non-numeric moisture value. -/
def readingNonNum : Conditions :=
  [("moisture", JSONValue.str "high"), ("temperature", JSONValue.num 22)]

/-- Concrete reading fixture: light 100 lux only. -/
def readingLightLow : Conditions := [("light_lux", JSONValue.num 100)]

/-- Concrete argument bag: a pid but no conditions object. -/
def argsPidOnly : Conditions := [("pid", JSONValue.str "monstera deliciosa")]

/-- Concrete configuration fixture: API key plus one OAuth2 field. -/
def configKeyAndHalfOAuth : Config :=
  { APIKey := "k", ClientID := "id", ClientSecret := "",
    LogLevel := LogLevel.info, CacheEnabled := true, CacheTTL := 24, DefaultLang := "en" }

/-- Extending an infix on the right keeps it an infix. -/
lemma sub_append_left {α : Type} {l x : List α} (y : List α) (h : l <:+: x) :
    l <:+: x ++ y := by
  obtain ⟨u, v, rfl⟩ := h
  exact ⟨u, v ++ y, by simp⟩

/-- Extending an infix on the left keeps it an infix. -/
lemma sub_append_right {α : Type} {l y : List α} (x : List α) (h : l <:+: y) :
    l <:+: x ++ y := by
  obtain ⟨u, v, rfl⟩ := h
  exact ⟨x ++ u, v, by simp⟩

/-- An infix of the accumulated string survives a conditional append. -/
lemma sub_ite_app (c : Prop) [Decidable c] (s t : String) {l : List Char}
    (h : l <:+: s.data) : l <:+: (if c then s ++ t else s).data := by
  split
  · rw [String.data_append]; exact sub_append_left _ h
  · exact h

/-- A leading segment survives appending on the right. -/
lemma lead_app {l : List Char} (s t : String) (h : l <+: s.data) :
    l <+: (s ++ t).data := by
  obtain ⟨u, hu⟩ := h
  exact ⟨u ++ t.data, by rw [String.data_append, ← hu]; simp⟩

/-- A leading segment of the accumulator survives the rendering fold. -/
lemma lead_foldl (lst : List String) (start : String) {l : List Char}
    (h : l <+: start.data) :
    l <+: (lst.foldl (fun a i => a ++ i ++ "\n\n") start).data := by
  induction lst generalizing start with
  | nil => exact h
  | cons x xs ih => exact ih _ (lead_app _ _ (lead_app _ _ h))

/-- A leading segment survives a conditional append. -/
lemma lead_ite_app (c : Prop) [Decidable c] (s t : String) {l : List Char}
    (h : l <+: s.data) : l <+: (if c then s ++ t else s).data := by
  split
  · exact lead_app _ _ h
  · exact h

/-- The appended string is a suffix of an append. -/
lemma tail_app (s t : String) : t.data <:+ (s ++ t).data := by
  rw [String.data_append]; exact ⟨s.data, rfl⟩

/-- Two incomparable lists are never both suffixes of the same list. -/
lemma noTwoTails {a b : List Char} (hab : ¬ a <:+ b) (hba : ¬ b <:+ a) :
    ∀ s : List Char, a <:+ s → b <:+ s → False := by
  intro s ha hb
  rcases List.suffix_or_suffix_of_suffix ha hb with h | h
  · exact hab h
  · exact hba h

/-- Digit characters are never the decimal point. -/
lemma digitChar_ne_dot {k : ℕ} (hk : k < 10) : digitChar k ≠ '.' := by
  interval_cases k <;> decide

/-- The decimal point never occurs in a rendered natural number. -/
lemma dot_not_mem_natStrAux (fuel n : ℕ) : '.' ∉ natStrAux fuel n := by
  induction fuel generalizing n with
  | zero => simp [natStrAux]
  | succ fuel ih =>
    unfold natStrAux
    split
    · simp only [List.mem_singleton]
      exact fun h => digitChar_ne_dot (by omega) h.symm
    · intro h
      rcases List.mem_append.mp h with h | h
      · exact ih _ h
      · simp only [List.mem_singleton] at h
        exact digitChar_ne_dot (Nat.mod_lt _ (by omega)) h.symm

/-- Rendered natural numbers contain no decimal point. -/
lemma count_dot_natStr (n : ℕ) : List.count '.' (natStr n).data = 0 :=
  List.count_eq_zero.mpr (dot_not_mem_natStrAux _ _)

/-- The `%d` rendering of an integer contains no decimal point. -/
lemma count_dot_intStr (n : ℤ) : List.count '.' (intStr n).data = 0 := by
  rw [List.count_eq_zero]
  unfold intStr
  split
  · rw [String.data_append]
    intro h
    rcases List.mem_append.mp h with h | h
    · exact absurd h (by decide)
    · exact dot_not_mem_natStrAux _ _ h
  · exact dot_not_mem_natStrAux _ _

/-- The `%.0f` rendering contains no decimal point. -/
lemma count_dot_fmtF0 (q : ℚ) : List.count '.' (fmtF0 q).data = 0 :=
  count_dot_intStr _

/-- The `%.1f` rendering contains exactly one decimal point. -/
lemma count_dot_fmtF1 (q : ℚ) : List.count '.' (fmtF1 q).data = 1 := by
  simp only [fmtF1]
  rw [String.data_append, String.data_append, String.data_append,
    List.count_append, List.count_append, List.count_append,
    count_dot_natStr, count_dot_natStr]
  have h3 : List.count '.'
      (if roundNearestEven (q * 10) < 0 then "-" else "").data = 0 := by
    split <;> decide
  rw [h3]
  decide

/-- checkMoisture only appends: its effect on any accumulator is the
effect on the empty accumulator, appended. -/
lemma checkMoisture_acc (d : PlantDetails) (c : Conditions)
    (acc : List String × List String) :
    checkMoisture d c acc =
      (acc.1 ++ (checkMoisture d c ([], [])).1, acc.2 ++ (checkMoisture d c ([], [])).2) := by
  unfold checkMoisture
  cases getFloat64 c "moisture" <;> simp only
  · simp
  · split <;> [skip; simp]
    split <;> [simp; skip]
    split <;> simp

/-- checkTemperature only appends. -/
lemma checkTemperature_acc (d : PlantDetails) (c : Conditions)
    (acc : List String × List String) :
    checkTemperature d c acc =
      (acc.1 ++ (checkTemperature d c ([], [])).1,
        acc.2 ++ (checkTemperature d c ([], [])).2) := by
  unfold checkTemperature
  cases getFloat64 c "temperature" <;> simp only
  · simp
  · split <;> [skip; simp]
    split <;> [simp; skip]
    split <;> simp

/-- checkLight only appends. -/
lemma checkLight_acc (d : PlantDetails) (c : Conditions)
    (acc : List String × List String) :
    checkLight d c acc =
      (acc.1 ++ (checkLight d c ([], [])).1, acc.2 ++ (checkLight d c ([], [])).2) := by
  unfold checkLight
  cases getFloat64 c "light_lux" <;> simp only
  · simp
  · split <;> [skip; simp]
    split <;> [simp; skip]
    split <;> simp

/-- checkHumidity only appends. -/
lemma checkHumidity_acc (d : PlantDetails) (c : Conditions)
    (acc : List String × List String) :
    checkHumidity d c acc =
      (acc.1 ++ (checkHumidity d c ([], [])).1, acc.2 ++ (checkHumidity d c ([], [])).2) := by
  unfold checkHumidity
  cases getFloat64 c "humidity" <;> simp only
  · simp
  · split <;> [skip; simp]
    split <;> [simp; skip]
    split <;> simp

/-- The comparison lists split into the four dimensions' contributions,
in evaluation order. -/
lemma compareIssuesOk_eq (d : PlantDetails) (c : Conditions) :
    compareIssuesOk d c =
      ((checkMoisture d c ([], [])).1 ++ (checkTemperature d c ([], [])).1 ++
        (checkLight d c ([], [])).1 ++ (checkHumidity d c ([], [])).1,
      (checkMoisture d c ([], [])).2 ++ (checkTemperature d c ([], [])).2 ++
        (checkLight d c ([], [])).2 ++ (checkHumidity d c ([], [])).2) := by
  unfold compareIssuesOk
  rw [checkTemperature_acc, checkLight_acc, checkHumidity_acc]

/-- The comparison lists depend on the reading only through the numeric
values `getFloat64` extracts for the four keys. -/
lemma compareIssuesOk_congr (d : PlantDetails) {c c' : Conditions}
    (h : ∀ key, getFloat64 c key = getFloat64 c' key) :
    compareIssuesOk d c = compareIssuesOk d c' := by
  unfold compareIssuesOk checkMoisture checkTemperature checkLight checkHumidity
  simp only [h]

/-- The comparison report depends on the reading only through the numeric
values `getFloat64` extracts for the four keys. -/
lemma compareConditions_congr (d : PlantDetails) {c c' : Conditions}
    (h : ∀ key, getFloat64 c key = getFloat64 c' key) :
    compareConditions d c = compareConditions d c' := by
  unfold compareConditions
  rw [compareIssuesOk_congr d h]

/-- Looking up a different key is unaffected by erasing `k`. -/
lemma lookup_eraseKey_ne (c : Conditions) (k k' : String) (h : k' ≠ k) :
    List.lookup k' (eraseKey c k) = List.lookup k' c := by
  induction c with
  | nil => rfl
  | cons p rest ih =>
    obtain ⟨a, b⟩ := p
    simp only [eraseKey]
    by_cases hp : a = k
    · rw [if_pos hp, ih]
      subst hp
      have hb : (k' == a) = false := beq_eq_false_iff_ne.mpr h
      simp [List.lookup, hb]
    · rw [if_neg hp]
      by_cases hk : k' = a
      · subst hk
        simp [List.lookup]
      · have hb : (k' == a) = false := beq_eq_false_iff_ne.mpr hk
        simp [List.lookup, hb, ih]

/-- Looking up the erased key yields nothing. -/
lemma lookup_eraseKey_self (c : Conditions) (k : String) :
    List.lookup k (eraseKey c k) = none := by
  induction c with
  | nil => rfl
  | cons p rest ih =>
    obtain ⟨a, b⟩ := p
    simp only [eraseKey]
    by_cases hp : a = k
    · rw [if_pos hp]
      exact ih
    · rw [if_neg hp]
      have hb : (k == a) = false := beq_eq_false_iff_ne.mpr (fun hh => hp hh.symm)
      simp [List.lookup, hb, ih]

/-- checkMoisture does nothing when the moisture upper bound is zero. -/
lemma checkMoisture_max0 (d : PlantDetails) (c : Conditions)
    (acc : List String × List String) (h : d.MaxSoilMoist = 0) :
    checkMoisture d c acc = acc := by
  unfold checkMoisture
  cases getFloat64 c "moisture" <;> simp [h]

/-- checkTemperature does nothing when the temperature upper bound is zero. -/
lemma checkTemperature_max0 (d : PlantDetails) (c : Conditions)
    (acc : List String × List String) (h : d.MaxTemp = 0) :
    checkTemperature d c acc = acc := by
  unfold checkTemperature
  cases getFloat64 c "temperature" <;> simp [h]

/-- checkLight does nothing when the light upper bound is zero. -/
lemma checkLight_max0 (d : PlantDetails) (c : Conditions)
    (acc : List String × List String) (h : d.MaxLightLux = 0) :
    checkLight d c acc = acc := by
  unfold checkLight
  cases getFloat64 c "light_lux" <;> simp [h]

/-- checkHumidity does nothing when the humidity upper bound is zero. -/
lemma checkHumidity_max0 (d : PlantDetails) (c : Conditions)
    (acc : List String × List String) (h : d.MaxEnvHumid = 0) :
    checkHumidity d c acc = acc := by
  unfold checkHumidity
  cases getFloat64 c "humidity" <;> simp [h]

/-- C1: for every care range and every dimension (light, temperature,
humidity, soil moisture, soil conductivity) whose upper bound is 0, that
dimension is rendered in neither the care summary of formatCareSummary
nor the comparison output of compareConditions: both outputs coincide
with the renderings in which that dimension's section and check are
structurally removed, regardless of all other inputs. -/
theorem claim_C1_zero_bound_dimension_absent
    (dim : Dim) (d : PlantDetails) (metric : Bool) (c : Conditions)
    (h : dimUpperZero d dim) :
    formatCareSummary d metric = formatCareSummarySkipping dim d metric ∧
    compareConditions d c = compareConditionsSkipping dim d c := by
  have hio : compareIssuesOk d c = compareIssuesOkSkipping dim d c := by
    cases dim <;> simp only [dimUpperZero] at h <;>
      unfold compareIssuesOk compareIssuesOkSkipping
    · rw [checkLight_max0 d c _ h]
      simp
    · rw [checkTemperature_max0 d c _ h]
      simp
    · rw [checkHumidity_max0 d c _ h]
      simp
    · rw [checkMoisture_max0 d c _ h]
      simp
    · simp
  constructor
  · cases dim <;> simp only [dimUpperZero] at h <;>
      simp [formatCareSummary, formatCareSummarySkipping, h]
  · unfold compareConditions compareConditionsSkipping
    rw [hio]

/-- Witness for C1: a concrete range with light max 0 renders without a
light section and compares without a light check. -/
theorem claim_C1_witness :
    dimUpperZero fixtureNoLight Dim.light ∧
    formatCareSummary fixtureNoLight true =
      formatCareSummarySkipping Dim.light fixtureNoLight true ∧
    compareConditions fixtureNoLight readingAllOk =
      compareConditionsSkipping Dim.light fixtureNoLight readingAllOk := by
  refine ⟨by decide, ?_⟩
  have h := claim_C1_zero_bound_dimension_absent Dim.light fixtureNoLight true
    readingAllOk (by decide)
  exact h

/-- C2: for every dimension compareConditions evaluates (the reading has
a numeric value for the dimension's key and the range's upper bound is
positive) the code applies the spec's ordered ladder: value strictly
below the minimum yields the "too low" issue line with delta minimum
minus current; otherwise value strictly above the maximum yields the
"too high" issue line with delta current minus maximum; otherwise —
including a value exactly equal to either bound — the "within range" OK
line is emitted. -/
theorem claim_C2_comparison_verdicts (dim : SensorDim) (d : PlantDetails)
    (c : Conditions) (v : ℚ)
    (hv : getFloat64 c (sensorKey dim) = some v) (hmax : sensorMaxPos d dim) :
    (v < sensorMin d dim →
      tooLowLineOf dim v (sensorMin d dim) (sensorMax d dim)
        (sensorMin d dim - v) ∈ (compareIssuesOk d c).1) ∧
    (sensorMin d dim ≤ v → sensorMax d dim < v →
      tooHighLineOf dim v (sensorMin d dim) (sensorMax d dim)
        (v - sensorMax d dim) ∈ (compareIssuesOk d c).1) ∧
    (sensorMin d dim ≤ v → v ≤ sensorMax d dim →
      withinLineOf dim v (sensorMin d dim) (sensorMax d dim) ∈ (compareIssuesOk d c).2) := by
  rw [compareIssuesOk_eq]
  cases dim <;>
    simp only [sensorKey] at hv <;>
    simp only [sensorMaxPos] at hmax <;>
    simp only [sensorMin, sensorMax, tooLowLineOf, tooHighLineOf, withinLineOf] <;>
    refine ⟨fun hlt => ?_, fun hge hgt => ?_, fun hge hle => ?_⟩
  case moisture.refine_1 => simp [checkMoisture, hv, hmax, hlt]
  case moisture.refine_2 => simp [checkMoisture, hv, hmax, not_lt.mpr hge, hgt]
  case moisture.refine_3 =>
    simp [checkMoisture, hv, hmax, not_lt.mpr hge, not_lt.mpr hle]
  case temperature.refine_1 => simp [checkTemperature, hv, hmax, hlt]
  case temperature.refine_2 => simp [checkTemperature, hv, hmax, not_lt.mpr hge, hgt]
  case temperature.refine_3 =>
    simp [checkTemperature, hv, hmax, not_lt.mpr hge, not_lt.mpr hle]
  case light.refine_1 => simp [checkLight, hv, hmax, hlt]
  case light.refine_2 => simp [checkLight, hv, hmax, not_lt.mpr hge, hgt]
  case light.refine_3 =>
    simp [checkLight, hv, hmax, not_lt.mpr hge, not_lt.mpr hle]
  case humidity.refine_1 => simp [checkHumidity, hv, hmax, hlt]
  case humidity.refine_2 => simp [checkHumidity, hv, hmax, not_lt.mpr hge, hgt]
  case humidity.refine_3 =>
    simp [checkHumidity, hv, hmax, not_lt.mpr hge, not_lt.mpr hle]

/-- Witness for C2: moisture 15 against range 25-60 produces the too-low
issue line with delta 10. -/
theorem claim_C2_witness :
    getFloat64 readingMoistLow (sensorKey SensorDim.moisture) = some 15 ∧
    sensorMaxPos fixtureFull SensorDim.moisture ∧
    (15 : ℚ) < sensorMin fixtureFull SensorDim.moisture ∧
    tooLowLineOf SensorDim.moisture 15 (sensorMin fixtureFull SensorDim.moisture)
      (sensorMax fixtureFull SensorDim.moisture)
      (sensorMin fixtureFull SensorDim.moisture - 15) ∈
      (compareIssuesOk fixtureFull readingMoistLow).1 := by
  refine ⟨by decide, by decide, by decide, ?_⟩
  exact (claim_C2_comparison_verdicts SensorDim.moisture fixtureFull readingMoistLow 15
    (by decide) (by decide)).1 (by decide)

/-- With no evaluable dimension the report ends in the no-conditions line. -/
lemma compareConditions_shape_none (d : PlantDetails) (c : Conditions)
    (hi : (compareIssuesOk d c).1 = []) (hk : (compareIssuesOk d c).2 = []) :
    ∃ s : String,
      compareConditions d c = s ++ "No conditions were provided for comparison.\n" := by
  unfold compareConditions
  rw [hi, hk]
  simp
  exact ⟨_, rfl⟩

/-- With no issues and at least one OK entry the report ends in the
positive summary line. -/
lemma compareConditions_shape_positive (d : PlantDetails) (c : Conditions)
    (hi : (compareIssuesOk d c).1 = []) (hk : (compareIssuesOk d c).2 ≠ []) :
    ∃ s : String,
      compareConditions d c =
        s ++ "\n**Summary**: All monitored conditions are within ideal ranges! 🌱\n" := by
  unfold compareConditions
  rw [hi]
  simp [List.length_pos.mpr hk]
  exact ⟨_, rfl⟩

/-- With at least one issue the report ends in the attention summary line
counting the issues. -/
lemma compareConditions_shape_attention (d : PlantDetails) (c : Conditions)
    (hi : (compareIssuesOk d c).1 ≠ []) :
    ∃ s : String,
      compareConditions d c = s ++ attentionTail (compareIssuesOk d c).1.length := by
  unfold compareConditions
  have hpos : 0 < (compareIssuesOk d c).1.length := List.length_pos.mpr hi
  simp [hpos, Nat.pos_iff_ne_zero.mp hpos]
  exact ⟨_, rfl⟩

/-- C3: every comparison report ends with exactly one of three closing
lines, chosen by the issue and OK counts: the no-conditions line when
neither list has entries, the positive summary when there are no issues
but at least one OK entry, and the attention summary when there is at
least one issue — the attention count being the number of issue entries,
independent of the OK entries. -/
theorem claim_C3_closing_line (d : PlantDetails) (c : Conditions) :
    ((compareIssuesOk d c).1 = [] → (compareIssuesOk d c).2 = [] →
      "No conditions were provided for comparison.\n".data <:+ (compareConditions d c).data ∧
      ¬ ("\n**Summary**: All monitored conditions are within ideal ranges! 🌱\n".data <:+
          (compareConditions d c).data) ∧
      ∀ n : ℕ, ¬ ((attentionTail n).data <:+ (compareConditions d c).data)) ∧
    ((compareIssuesOk d c).1 = [] → (compareIssuesOk d c).2 ≠ [] →
      "\n**Summary**: All monitored conditions are within ideal ranges! 🌱\n".data <:+
        (compareConditions d c).data ∧
      ¬ ("No conditions were provided for comparison.\n".data <:+
          (compareConditions d c).data) ∧
      ∀ n : ℕ, ¬ ((attentionTail n).data <:+ (compareConditions d c).data)) ∧
    ((compareIssuesOk d c).1 ≠ [] →
      (attentionTail (compareIssuesOk d c).1.length).data <:+ (compareConditions d c).data ∧
      ¬ ("No conditions were provided for comparison.\n".data <:+
          (compareConditions d c).data) ∧
      ¬ ("\n**Summary**: All monitored conditions are within ideal ranges! 🌱\n".data <:+
          (compareConditions d c).data)) := by
  refine ⟨fun hi hk => ?_, fun hi hk => ?_, fun hi => ?_⟩
  · obtain ⟨s, hs⟩ := compareConditions_shape_none d c hi hk
    rw [hs]
    have hnc := tail_app s "No conditions were provided for comparison.\n"
    refine ⟨hnc, fun hsuf => noTwoTails (by decide) (by decide) _ hnc hsuf, fun n hsuf => ?_⟩
    have hfix := tail_app ("\n**Summary**: " ++ natStr n) " condition(s) need attention.\n"
    exact noTwoTails (by decide) (by decide) _ hnc (hfix.trans hsuf)
  · obtain ⟨s, hs⟩ := compareConditions_shape_positive d c hi hk
    rw [hs]
    have hp := tail_app s "\n**Summary**: All monitored conditions are within ideal ranges! 🌱\n"
    refine ⟨hp, fun hsuf => noTwoTails (by decide) (by decide) _ hp hsuf, fun n hsuf => ?_⟩
    have hfix := tail_app ("\n**Summary**: " ++ natStr n) " condition(s) need attention.\n"
    exact noTwoTails (by decide) (by decide) _ hp (hfix.trans hsuf)
  · obtain ⟨s, hs⟩ := compareConditions_shape_attention d c hi
    rw [hs]
    have ha := tail_app s (attentionTail (compareIssuesOk d c).1.length)
    have hfix := tail_app ("\n**Summary**: " ++ natStr (compareIssuesOk d c).1.length)
      " condition(s) need attention.\n"
    have hfixout := hfix.trans ha
    exact ⟨ha, fun hsuf => noTwoTails (by decide) (by decide) _ hfixout hsuf,
      fun hsuf => noTwoTails (by decide) (by decide) _ hfixout hsuf⟩

/-- Witness for C3: one low-moisture issue makes the report end with the
attention summary counting one issue. -/
theorem claim_C3_witness :
    (compareIssuesOk fixtureFull readingMoistLow).1 ≠ [] ∧
    (attentionTail (compareIssuesOk fixtureFull readingMoistLow).1.length).data <:+
      (compareConditions fixtureFull readingMoistLow).data := by
  refine ⟨by decide, ?_⟩
  exact ((claim_C3_closing_line fixtureFull readingMoistLow).2.2 (by decide)).1

/-- An infix of the accumulated string survives a conditional triple append. -/
lemma sub_ite_app3 (c : Prop) [Decidable c] (x a b e : String) {l : List Char}
    (h : l <:+: x.data) : l <:+: (if c then x ++ a ++ b ++ e else x).data := by
  split
  · rw [String.data_append, String.data_append, String.data_append]
    exact sub_append_left _ (sub_append_left _ (sub_append_left _ h))
  · exact h

/-- The light qualitative tag occurs in the care summary whenever the
light section is rendered. -/
lemma light_tag_in_summary (d : PlantDetails) (metric : Bool) (h : 0 < d.MaxLightLux) :
    (interpretLightLevel d.MinLightLux d.MaxLightLux).data <:+:
      (formatCareSummary d metric).data := by
  simp only [formatCareSummary]
  rw [if_pos h]
  apply sub_ite_app3
  apply sub_ite_app
  apply sub_ite_app
  apply sub_ite_app
  apply sub_ite_app
  rw [String.data_append]
  apply sub_append_right
  refine ⟨("**Light**: " ++ intStr d.MinLightLux ++ " - " ++
    intStr d.MaxLightLux ++ " lux").data, "\n\n".data, ?_⟩
  simp [lightSection, String.data_append]

/-- The moisture qualitative tag occurs in the care summary whenever the
soil-moisture section is rendered. -/
lemma moisture_tag_in_summary (d : PlantDetails) (metric : Bool) (h : 0 < d.MaxSoilMoist) :
    (interpretMoistureLevel d.MinSoilMoist d.MaxSoilMoist).data <:+:
      (formatCareSummary d metric).data := by
  simp only [formatCareSummary]
  rw [if_pos h]
  apply sub_ite_app3
  apply sub_ite_app
  rw [String.data_append]
  apply sub_append_right
  refine ⟨("**Soil Moisture**: " ++ intStr d.MinSoilMoist ++ " - " ++
    intStr d.MaxSoilMoist ++ "%").data, "\n\n".data, ?_⟩
  simp [moistureSection, String.data_append]

/-- The temperature section occurs in the care summary whenever it is
rendered. -/
lemma temp_section_in_summary (d : PlantDetails) (metric : Bool) (h : 0 < d.MaxTemp) :
    (tempSection d metric).data <:+: (formatCareSummary d metric).data := by
  simp only [formatCareSummary]
  rw [if_pos h]
  apply sub_ite_app3
  apply sub_ite_app
  apply sub_ite_app
  apply sub_ite_app
  rw [String.data_append]
  exact sub_append_right _ (List.infix_refl _)

/-- C4: the light tag appended by the care summary is chosen by the
truncated integer midpoint of the bounds against the ladder 2000 / 10000
/ 25000, the tag occurs in the summary whenever the light upper bound is
positive, and the boundary midpoints 1999/2000, 9999/10000 and
24999/25000 fall on opposite sides of their thresholds. -/
theorem claim_C4_light_level_ladder (min max : ℤ) (d : PlantDetails) (metric : Bool)
    (hmax : 0 < d.MaxLightLux) :
    (Int.tdiv (min + max) 2 < 2000 →
      interpretLightLevel min max = " (Low light - suitable for shade-tolerant plants)") ∧
    (2000 ≤ Int.tdiv (min + max) 2 → Int.tdiv (min + max) 2 < 10000 →
      interpretLightLevel min max = " (Medium indirect light - typical indoor lighting)") ∧
    (10000 ≤ Int.tdiv (min + max) 2 → Int.tdiv (min + max) 2 < 25000 →
      interpretLightLevel min max = " (Bright indirect light - near windows)") ∧
    (25000 ≤ Int.tdiv (min + max) 2 →
      interpretLightLevel min max = " (Full sun or very bright light - direct sunlight)") ∧
    (interpretLightLevel d.MinLightLux d.MaxLightLux).data <:+:
      (formatCareSummary d metric).data ∧
    interpretLightLevel 0 3998 = " (Low light - suitable for shade-tolerant plants)" ∧
    interpretLightLevel 0 4000 = " (Medium indirect light - typical indoor lighting)" ∧
    interpretLightLevel 0 19998 = " (Medium indirect light - typical indoor lighting)" ∧
    interpretLightLevel 0 20000 = " (Bright indirect light - near windows)" ∧
    interpretLightLevel 0 49998 = " (Bright indirect light - near windows)" ∧
    interpretLightLevel 0 50000 = " (Full sun or very bright light - direct sunlight)" := by
  refine ⟨fun h1 => ?_, fun h1 h2 => ?_, fun h1 h2 => ?_, fun h1 => ?_,
    light_tag_in_summary d metric hmax, by decide, by decide, by decide, by decide,
    by decide, by decide⟩
  · simp [interpretLightLevel, h1]
  · simp [interpretLightLevel, show ¬ Int.tdiv (min + max) 2 < 2000 by omega, h2]
  · simp [interpretLightLevel, show ¬ Int.tdiv (min + max) 2 < 2000 by omega,
      show ¬ Int.tdiv (min + max) 2 < 10000 by omega, h2]
  · simp [interpretLightLevel, show ¬ Int.tdiv (min + max) 2 < 2000 by omega,
      show ¬ Int.tdiv (min + max) 2 < 10000 by omega,
      show ¬ Int.tdiv (min + max) 2 < 25000 by omega]

/-- Witness for C4: the light tag of the full fixture occurs in its
rendered summary, and midpoint 1999 classifies as low light. -/
theorem claim_C4_witness :
    (0 : ℤ) < fixtureFull.MaxLightLux ∧
    Int.tdiv ((0 : ℤ) + 3998) 2 < 2000 ∧
    interpretLightLevel 0 3998 = " (Low light - suitable for shade-tolerant plants)" ∧
    (interpretLightLevel fixtureFull.MinLightLux fixtureFull.MaxLightLux).data <:+:
      (formatCareSummary fixtureFull true).data := by
  have h := claim_C4_light_level_ladder 0 3998 fixtureFull true (by decide)
  exact ⟨by decide, by decide, h.1 (by decide), h.2.2.2.2.1⟩

/-- C5: the soil-moisture tag appended by the care summary is chosen by
the truncated integer midpoint of the bounds against the ladder 20 / 40
/ 60, the tag occurs in the summary whenever the moisture upper bound is
positive, and the boundary midpoints 19/20, 39/40 and 59/60 fall on
opposite sides of their thresholds. -/
theorem claim_C5_moisture_level_ladder (min max : ℤ) (d : PlantDetails) (metric : Bool)
    (hmax : 0 < d.MaxSoilMoist) :
    (Int.tdiv (min + max) 2 < 20 →
      interpretMoistureLevel min max = " (Dry soil - water sparingly)") ∧
    (20 ≤ Int.tdiv (min + max) 2 → Int.tdiv (min + max) 2 < 40 →
      interpretMoistureLevel min max = " (Slightly moist - let soil dry between waterings)") ∧
    (40 ≤ Int.tdiv (min + max) 2 → Int.tdiv (min + max) 2 < 60 →
      interpretMoistureLevel min max = " (Evenly moist - keep soil consistently moist)") ∧
    (60 ≤ Int.tdiv (min + max) 2 →
      interpretMoistureLevel min max = " (Very moist - likes wet conditions)") ∧
    (interpretMoistureLevel d.MinSoilMoist d.MaxSoilMoist).data <:+:
      (formatCareSummary d metric).data ∧
    interpretMoistureLevel 0 38 = " (Dry soil - water sparingly)" ∧
    interpretMoistureLevel 0 40 = " (Slightly moist - let soil dry between waterings)" ∧
    interpretMoistureLevel 0 78 = " (Slightly moist - let soil dry between waterings)" ∧
    interpretMoistureLevel 0 80 = " (Evenly moist - keep soil consistently moist)" ∧
    interpretMoistureLevel 0 118 = " (Evenly moist - keep soil consistently moist)" ∧
    interpretMoistureLevel 0 120 = " (Very moist - likes wet conditions)" := by
  refine ⟨fun h1 => ?_, fun h1 h2 => ?_, fun h1 h2 => ?_, fun h1 => ?_,
    moisture_tag_in_summary d metric hmax, by decide, by decide, by decide, by decide,
    by decide, by decide⟩
  · simp [interpretMoistureLevel, h1]
  · simp [interpretMoistureLevel, show ¬ Int.tdiv (min + max) 2 < 20 by omega, h2]
  · simp [interpretMoistureLevel, show ¬ Int.tdiv (min + max) 2 < 20 by omega,
      show ¬ Int.tdiv (min + max) 2 < 40 by omega, h2]
  · simp [interpretMoistureLevel, show ¬ Int.tdiv (min + max) 2 < 20 by omega,
      show ¬ Int.tdiv (min + max) 2 < 40 by omega,
      show ¬ Int.tdiv (min + max) 2 < 60 by omega]

/-- Witness for C5: the moisture tag of the full fixture occurs in its
rendered summary, and midpoint 19 classifies as dry. -/
theorem claim_C5_witness :
    (0 : ℤ) < fixtureFull.MaxSoilMoist ∧
    Int.tdiv ((0 : ℤ) + 38) 2 < 20 ∧
    interpretMoistureLevel 0 38 = " (Dry soil - water sparingly)" ∧
    (interpretMoistureLevel fixtureFull.MinSoilMoist fixtureFull.MaxSoilMoist).data <:+:
      (formatCareSummary fixtureFull true).data := by
  have h := claim_C5_moisture_level_ladder 0 38 fixtureFull true (by decide)
  exact ⟨by decide, by decide, h.1 (by decide), h.2.2.2.2.1⟩

set_option maxRecDepth 20000 in
/-- C6 counterexample: for a light-only range 1500-3000 lux and a reading
of 100 lux, the issue line renders the current value integer-style as
"Current 100 lux"; the one-decimal rendering "100.0" that the claim
requires for the current value appears nowhere in the report. -/
theorem claim_C6_counterexample :
    (compareIssuesOk fixtureLightOnly readingLightLow).1 =
      ["❌ **Light Too Low**: Current 100 lux, needs 1500-3000 lux (1400 lux below minimum)"] ∧
    "Current 100 lux,".data <:+:
      (compareConditions fixtureLightOnly readingLightLow).data ∧
    ¬ ("100.0".data <:+: (compareConditions fixtureLightOnly readingLightLow).data) := by
  refine ⟨by decide, by decide, by decide⟩

/-- C6 amended: counting decimal points in each issue line over all
inputs: moisture and humidity lines carry exactly two one-decimal fields
(current value and deviation) and integer-style bounds; temperature
lines carry four one-decimal fields; light lines are integer-style
throughout, including the current value. -/
theorem claim_C6_amended_issue_precision (cur mn mx df : ℚ) :
    List.count '.' (moistureTooLow cur mn mx df).data = 2 ∧
    List.count '.' (moistureTooHigh cur mn mx df).data = 2 ∧
    List.count '.' (humidTooLow cur mn mx df).data = 2 ∧
    List.count '.' (humidTooHigh cur mn mx df).data = 2 ∧
    List.count '.' (tempTooLow cur mn mx df).data = 4 ∧
    List.count '.' (tempTooHigh cur mn mx df).data = 4 ∧
    List.count '.' (lightTooLow cur mn mx df).data = 0 ∧
    List.count '.' (lightTooHigh cur mn mx df).data = 0 := by
  refine ⟨?_, ?_, ?_, ?_, ?_, ?_, ?_, ?_⟩ <;>
    simp only [moistureTooLow, moistureTooHigh, humidTooLow, humidTooHigh, tempTooLow,
      tempTooHigh, lightTooLow, lightTooHigh, String.data_append, List.count_append,
      count_dot_fmtF0, count_dot_fmtF1] <;>
    decide

/-- C7: with a positive temperature upper bound the summary renders the
bounds in Celsius when metric and otherwise converts both bounds by
`F = C * 9 / 5 + 32` at one-decimal display precision; the conversion is
exact at 0°C = 32°F, 100°C = 212°F, and 18.0-27.0°C = 64.4-80.6°F. -/
theorem claim_C7_temperature_conversion (d : PlantDetails) (hmax : 0 < d.MaxTemp) :
    ("**Temperature**: " ++ fmtF1 d.MinTemp ++ " - " ++ fmtF1 d.MaxTemp ++ "°C").data <:+:
      (formatCareSummary d true).data ∧
    ("**Temperature**: " ++ fmtF1 (d.MinTemp * 9 / 5 + 32) ++ " - " ++
        fmtF1 (d.MaxTemp * 9 / 5 + 32) ++ "°F").data <:+:
      (formatCareSummary d false).data ∧
    (0 : ℚ) * 9 / 5 + 32 = 32 ∧
    (100 : ℚ) * 9 / 5 + 32 = 212 ∧
    fmtF1 ((18 : ℚ) * 9 / 5 + 32) = "64.4" ∧
    fmtF1 ((27 : ℚ) * 9 / 5 + 32) = "80.6" := by
  refine ⟨?_, ?_, by decide, by decide, by decide, by decide⟩
  · refine List.IsInfix.trans ⟨[], "\n\n".data, ?_⟩ (temp_section_in_summary d true hmax)
    simp [tempSection, String.data_append]
  · refine List.IsInfix.trans ⟨[], "\n\n".data, ?_⟩ (temp_section_in_summary d false hmax)
    simp [tempSection, String.data_append]

/-- Witness for C7: the imperial summary of the full fixture contains
the converted range 64.4 - 80.6°F. -/
theorem claim_C7_witness :
    (0 : ℚ) < fixtureFull.MaxTemp ∧
    ("**Temperature**: " ++ fmtF1 (fixtureFull.MinTemp * 9 / 5 + 32) ++ " - " ++
        fmtF1 (fixtureFull.MaxTemp * 9 / 5 + 32) ++ "°F").data <:+:
      (formatCareSummary fixtureFull false).data := by
  exact ⟨by decide, (claim_C7_temperature_conversion fixtureFull (by decide)).2.1⟩

/-- Every comparison report starts with the analysis header. -/
lemma compareConditions_header (d : PlantDetails) (c : Conditions) :
    "# Condition Analysis for ".data <+: (compareConditions d c).data := by
  simp only [compareConditions]
  have h0 : "# Condition Analysis for ".data <+:
      ("# Condition Analysis for " ++ d.Alias ++ "\n\n").data :=
    lead_app _ _ (lead_app _ _ (List.prefix_refl _))
  repeat' split
  all_goals
    repeat
      first
        | exact h0
        | apply lead_foldl
        | apply lead_app

/-- C8: a reading key holding a non-numeric value behaves exactly like an
absent key: both the accumulated lists and the full report equal those
for the reading with the key removed, and the comparison still returns a
well-formed report (it always starts with the analysis header). -/
theorem claim_C8_non_numeric_like_absent (d : PlantDetails) (c : Conditions)
    (k : String) (v : JSONValue) (hv : List.lookup k c = some v)
    (hnum : ∀ q : ℚ, v ≠ JSONValue.num q) :
    compareConditions d c = compareConditions d (eraseKey c k) ∧
    compareIssuesOk d c = compareIssuesOk d (eraseKey c k) ∧
    "# Condition Analysis for ".data <+: (compareConditions d c).data := by
  have hget : ∀ key, getFloat64 c key = getFloat64 (eraseKey c k) key := by
    intro key
    by_cases hk : key = k
    · subst hk
      unfold getFloat64
      rw [hv, lookup_eraseKey_self]
      cases v with
      | num q => exact absurd rfl (hnum q)
      | str s => rfl
      | boolean b => rfl
      | null => rfl
      | arr vs => rfl
      | obj fields => rfl
    · unfold getFloat64
      rw [lookup_eraseKey_ne c k key hk]
  exact ⟨compareConditions_congr d hget, compareIssuesOk_congr d hget,
    compareConditions_header d c⟩

/-- Witness for C8: a string-valued moisture key produces the same report
as the reading with moisture removed. -/
theorem claim_C8_witness :
    List.lookup "moisture" readingNonNum = some (JSONValue.str "high") ∧
    compareConditions fixtureFull readingNonNum =
      compareConditions fixtureFull (eraseKey readingNonNum "moisture") ∧
    "# Condition Analysis for ".data <+:
      (compareConditions fixtureFull readingNonNum).data := by
  have h := claim_C8_non_numeric_like_absent fixtureFull readingNonNum "moisture"
    (JSONValue.str "high") rfl (fun q hq => nomatch hq)
  exact ⟨rfl, h.1, h.2.2⟩

/-- RequireString fails when the key is absent or holds a non-string. -/
lemma RequireString_error (args : Conditions) (key : String)
    (h : ∀ s, List.lookup key args ≠ some (JSONValue.str s)) :
    ∃ e, RequireString args key = Except.error e := by
  unfold RequireString
  cases hl : List.lookup key args with
  | none => exact ⟨_, rfl⟩
  | some v =>
    cases v with
    | str s => exact absurd hl (h s)
    | num q => exact ⟨_, rfl⟩
    | boolean b => exact ⟨_, rfl⟩
    | null => exact ⟨_, rfl⟩
    | arr vs => exact ⟨_, rfl⟩
    | obj fields => exact ⟨_, rfl⟩

/-- C9: each handler answers a missing required parameter with an
error-flagged tool result and a nil Go error: no string `query` for
search_plants; no string `pid` for get_plant_care, get_care_summary and
compare_conditions; and for compare_conditions a `current_conditions`
argument that is absent or not an object — for every abstracted SDK
backend, marshalling function, and argument bag. -/
theorem claim_C9_validation_error_results {α : Type}
    (search : String → ℤ → Except String (List α))
    (marshalSearch : List α → Except String String)
    (getDetailsLang : String → String → Except String PlantDetails)
    (marshalDetails : PlantDetails → Except String String)
    (defaultLang : String)
    (getDetails : String → Except String PlantDetails)
    (args : Conditions) :
    ((∀ s, List.lookup "query" args ≠ some (JSONValue.str s)) →
      (handleSearchPlants search marshalSearch args).1.isError = true ∧
      (handleSearchPlants search marshalSearch args).2 = none) ∧
    ((∀ s, List.lookup "pid" args ≠ some (JSONValue.str s)) →
      ((handleGetPlantCare getDetailsLang marshalDetails defaultLang args).1.isError = true ∧
        (handleGetPlantCare getDetailsLang marshalDetails defaultLang args).2 = none) ∧
      ((handleGetCareSummary getDetails args).1.isError = true ∧
        (handleGetCareSummary getDetails args).2 = none) ∧
      ((handleCompareConditions getDetails args).1.isError = true ∧
        (handleCompareConditions getDetails args).2 = none)) ∧
    (∀ p, List.lookup "pid" args = some (JSONValue.str p) →
      (∀ f, List.lookup "current_conditions" args ≠ some (JSONValue.obj f)) →
      (handleCompareConditions getDetails args).1.isError = true ∧
      (handleCompareConditions getDetails args).2 = none) := by
  refine ⟨fun hq => ?_, fun hp => ?_, fun p hp hcc => ?_⟩
  · obtain ⟨e, he⟩ := RequireString_error args "query" hq
    unfold handleSearchPlants
    rw [he]
    exact ⟨rfl, rfl⟩
  · obtain ⟨e, he⟩ := RequireString_error args "pid" hp
    unfold handleGetPlantCare handleGetCareSummary handleCompareConditions
    rw [he]
    exact ⟨⟨rfl, rfl⟩, ⟨rfl, rfl⟩, rfl, rfl⟩
  · have hreq : RequireString args "pid" = Except.ok p := by
      unfold RequireString
      rw [hp]
    unfold handleCompareConditions
    rw [hreq]
    cases hl : List.lookup "current_conditions" args with
    | none => exact ⟨rfl, rfl⟩
    | some v =>
      cases v with
      | obj fields => exact absurd hl (hcc fields)
      | num q => exact ⟨rfl, rfl⟩
      | str s => exact ⟨rfl, rfl⟩
      | boolean b => exact ⟨rfl, rfl⟩
      | null => exact ⟨rfl, rfl⟩
      | arr vs => exact ⟨rfl, rfl⟩

/-- Witness for C9: an argument bag with a pid but no conditions object
makes compare_conditions answer with an error result and a nil Go error. -/
theorem claim_C9_witness :
    List.lookup "pid" argsPidOnly = some (JSONValue.str "monstera deliciosa") ∧
    (handleCompareConditions (fun _ => Except.error "") argsPidOnly).1.isError = true ∧
    (handleCompareConditions (fun _ => Except.error "") argsPidOnly).2 = none := by
  have h := (claim_C9_validation_error_results (α := Unit)
    (fun _ _ => Except.error "") (fun _ => Except.error "")
    (fun _ _ => Except.error "") (fun _ => Except.error "") "en"
    (fun _ => Except.error "") argsPidOnly).2.2
    "monstera deliciosa" rfl (fun f hf => nomatch hf)
  exact ⟨rfl, h.1, h.2⟩

/-- C10: the LoadConfig validation accepts exactly one authentication
method: it succeeds iff exactly one of (non-empty API key) and (complete
OAuth2 pair) holds, and with a non-empty API key plus an incomplete
OAuth2 pair it succeeds and server.New selects API-key authentication. -/
theorem claim_C10_exactly_one_auth (c : Config) :
    ((∃ cfg, validateConfig c = Except.ok cfg) ↔
      Xor' (c.APIKey ≠ "") (c.ClientID ≠ "" ∧ c.ClientSecret ≠ "")) ∧
    (c.APIKey ≠ "" → (c.ClientID = "" ∨ c.ClientSecret = "") →
      validateConfig c = Except.ok c ∧ chooseAuth c = AuthChoice.apiKey c.APIKey) := by
  constructor
  · by_cases hA : c.APIKey = "" <;> by_cases hI : c.ClientID = "" <;>
      by_cases hS : c.ClientSecret = "" <;>
      simp [validateConfig, Xor', hA, hI, hS]
  · intro hA hOr
    rcases hOr with h | h <;> simp [validateConfig, chooseAuth, hA, h]

/-- Witness for C10: an API key together with only a client id validates
and selects API-key authentication. -/
theorem claim_C10_witness :
    configKeyAndHalfOAuth.APIKey ≠ "" ∧
    configKeyAndHalfOAuth.ClientSecret = "" ∧
    validateConfig configKeyAndHalfOAuth = Except.ok configKeyAndHalfOAuth ∧
    chooseAuth configKeyAndHalfOAuth = AuthChoice.apiKey "k" := by
  have h := (claim_C10_exactly_one_auth configKeyAndHalfOAuth).2 (by decide) (Or.inr rfl)
  exact ⟨by decide, rfl, h.1, h.2⟩
